import Mathlib

/-!
Shallow embedding of the iping.online client wrappers.

Each wrapper around the backend SDK is modelled as a pure function from the
outcomes of the backend calls it would issue (passed in as explicit oracle
arguments) to a pair of (the list of SDK calls issued, in order) and (the
value returned or the error thrown).  The auth provider's effect is modelled
as an explicit state machine on an `AuthState` record together with a static
list of the setup and cleanup actions of its single `useEffect`.
-/

/-- A JavaScript value as it can appear in a profile-update object:
absent (`undefined`), `null`, or a string value. -/
inductive JVal where
  | jsUndefined
  | jnull
  | str (s : String)
  deriving DecidableEq, Repr

/-- A JS object is modelled as an association list from keys to values. -/
abbrev JsObj : Type := List (String × JVal)

/-- Property access `o[k]`: `undefined` when the key is absent. -/
def jsGet (o : JsObj) (k : String) : JVal :=
  (o.lookup k).getD .jsUndefined

/-- The filter applied by `updateProfile`: a value survives
`value !== undefined && value !== null`. -/
def JVal.kept : JVal → Bool
  | .str _ => true
  | _ => false

deriving instance DecidableEq for Except

/-- A backend (PostgREST) error object, with its `code` and `message`. -/
structure DbError where
  code : String
  message : String
  deriving DecidableEq, Repr

/-- One SDK call issued to the backend, identified by endpoint and arguments. -/
inductive SdkCall where
  | authGetSession
  | authGetUser
  | selectProfileStar (userId : String)
  | selectProfileAdmin (userId : String)
  | updateProfiles (userId : String) (payload : JsObj)
  | updateProfilesRaw (userId : Option String) (payload : JsObj)
  | storageUpload (bucket : String) (path : String)
  | getPublicUrl (bucket : String) (path : String)
  | insertPing (userId : String) (content : String) (imageUrl : Option String)
  | selectPings (profilesProj likesProj commentsProj : List String) (lo hi : Int)
  | insertFollow (followedId : String)
  | deleteFollow (followedId : String)
  | selectFollowId (followedId : String)
  | countProfiles
  deriving DecidableEq, Repr

/-- ApiService.fetchOwnProfile: get the session, then select the own row from
`profiles`; `null` when unauthenticated or on a query error. -/
def fetchOwnProfile (sess : Option String) (queryRes : Except DbError JsObj) :
    List SdkCall × Option JsObj :=
  match sess with
  | none => ([.authGetSession], none)
  | some uid =>
    ([.authGetSession, .selectProfileStar uid],
     match queryRes with
     | .error _ => none
     | .ok row => some row)

/-- The field whitelist built by `allowedUpdates` in ApiService.updateProfile,
in object-literal order. -/
def allowedUpdateFields : List String :=
  ["username", "display_name", "bio", "location", "avatar_url"]

/-- The `allowedUpdates` object literal of ApiService.updateProfile. -/
def allowedUpdates (updates : JsObj) : JsObj :=
  allowedUpdateFields.map (fun k => (k, jsGet updates k))

/-- The `finalUpdates` object of ApiService.updateProfile: `allowedUpdates`
with `undefined` and `null` entries removed. -/
def finalUpdates (updates : JsObj) : JsObj :=
  (allowedUpdates updates).filter (fun kv => kv.2.kept)

/-- ApiService.updateProfile: get the session; if no valid updates remain,
fall back to `fetchOwnProfile` (which issues its own session check);
otherwise update the own `profiles` row with the filtered payload. -/
def updateProfile (sess : Option String) (updates : JsObj)
    (updRes : Except DbError JsObj)
    (fetchSess : Option String) (fetchRes : Except DbError JsObj) :
    List SdkCall × Option JsObj :=
  match sess with
  | none => ([.authGetSession], none)
  | some uid =>
    let fin := finalUpdates updates
    if fin.length = 0 then
      let r := fetchOwnProfile fetchSess fetchRes
      (SdkCall.authGetSession :: r.1, r.2)
    else
      ([.authGetSession, .updateProfiles uid fin],
       match updRes with
       | .error _ => none
       | .ok row => some row)

/-- A file handed to an upload, carrying its name. -/
structure FileInfo where
  name : String
  deriving DecidableEq, Repr

/-- The storage path built by uploadAvatar from `Date.now()` and the file name. -/
def avatarFilePath (uid : String) (now : Nat) (f : FileInfo) : String :=
  "avatars/" ++ uid ++ "/" ++ toString now ++ "_" ++ f.name

/-- ApiService.uploadAvatar: get the session, upload to the `avatars` bucket,
get the public URL, then delegate to `updateProfile` with the new
`avatar_url`. -/
def uploadAvatar (sess : Option String) (now : Nat) (file : FileInfo)
    (uploadRes : Option DbError) (publicUrl : String)
    (updRes : Except DbError JsObj)
    (fetchSess : Option String) (fetchRes : Except DbError JsObj) :
    List SdkCall × Option JsObj :=
  match sess with
  | none => ([.authGetSession], none)
  | some uid =>
    let path := avatarFilePath uid now file
    match uploadRes with
    | some _ => ([.authGetSession, .storageUpload "avatars" path], none)
    | none =>
      let r := updateProfile (some uid) [("avatar_url", .str publicUrl)]
        updRes fetchSess fetchRes
      (SdkCall.authGetSession :: SdkCall.storageUpload "avatars" path ::
        SdkCall.getPublicUrl "avatars" path :: r.1, r.2)

/-- The storage path built by createPost for a post image. -/
def postFilePath (uid : String) (now : Nat) (f : FileInfo) : String :=
  "posts/" ++ uid ++ "/" ++ toString now ++ "_" ++ f.name

/-- ApiService.createPost: get the session; when an image file is given,
upload it to the `posts` bucket and fail the whole call on upload error;
then insert a row into `pings` and return it. -/
def createPost (sess : Option String) (now : Nat) (content : String)
    (imageFile : Option FileInfo) (uploadRes : Option DbError)
    (publicUrl : String) (insertRes : Except DbError JsObj) :
    List SdkCall × Option JsObj :=
  match sess with
  | none => ([.authGetSession], none)
  | some uid =>
    match imageFile with
    | some f =>
      let path := postFilePath uid now f
      match uploadRes with
      | some _ => ([.authGetSession, .storageUpload "posts" path], none)
      | none =>
        ([.authGetSession, .storageUpload "posts" path,
          .getPublicUrl "posts" path,
          .insertPing uid content (some publicUrl)],
         match insertRes with
         | .error _ => none
         | .ok row => some row)
    | none =>
      ([.authGetSession, .insertPing uid content none],
       match insertRes with
       | .error _ => none
       | .ok row => some row)

/-- The projection of the joined `profiles` relation in getPosts, as written
in the select string of the source. -/
def postsProfilesProjection : List String :=
  ["id", "username", "display_name", "verified", "avatar_url"]

/-- The projection of the joined `likes` relation in getPosts. -/
def postsLikesProjection : List String := ["id", "user_id"]

/-- The projection of the joined `comments` relation in getPosts. -/
def postsCommentsProjection : List String := ["id"]

/-- ApiService.getPosts: one range query over `pings` with the three joined
projections; `null` on error or exception. -/
def getPosts (limit offset : Int) (queryRes : Except DbError (List JsObj)) :
    List SdkCall × Option (List JsObj) :=
  ([.selectPings postsProfilesProjection postsLikesProjection
      postsCommentsProjection offset (offset + limit - 1)],
   match queryRes with
   | .error _ => none
   | .ok rows => some rows)

/-- followUser: single insert into `follows`; throws the backend message on
error. -/
def followUser (userToFollowId : String) (res : Option DbError) :
    List SdkCall × Except String Unit :=
  ([.insertFollow userToFollowId],
   match res with
   | some e => .error e.message
   | none => .ok ())

/-- unfollowUser: single delete from `follows`; throws the backend message on
error. -/
def unfollowUser (userToUnfollowId : String) (res : Option DbError) :
    List SdkCall × Except String Unit :=
  ([.deleteFollow userToUnfollowId],
   match res with
   | some e => .error e.message
   | none => .ok ())

/-- isFollowing: one `.single()` select over `follows`; `PGRST116` (no rows)
yields `false`, any other error is rethrown with the backend message, and a
returned row yields `true`. -/
def isFollowing (targetUserId : String) (res : Except DbError JsObj) :
    List SdkCall × Except String Bool :=
  ([.selectFollowId targetUserId],
   match res with
   | .ok _ => .ok true
   | .error e =>
    if e.code = "PGRST116" then .ok false else .error e.message)

/-- updateUserProfile (standalone helper): awaits `auth.getUser` while
building the query, then updates the row whose id equals the current user's
id with the caller's record unchanged; throws the backend message on error. -/
def updateUserProfile (getUserRes : Option String) (profileUpdate : JsObj)
    (updRes : Option DbError) :
    List SdkCall × Except String Unit :=
  ([.authGetUser, .updateProfilesRaw getUserRes profileUpdate],
   match updRes with
   | some e => .error e.message
   | none => .ok ())

/-- getUserCount: one head-count query over `profiles`; `count || 0` on
success, throws the backend message on error. -/
def getUserCount (res : Except DbError (Option Nat)) :
    List SdkCall × Except String Nat :=
  ([.countProfiles],
   match res with
   | .error e => .error e.message
   | .ok c => .ok (c.getD 0))

/-- The view state held by the auth provider, plus the mounted flag of its
effect. The session is represented by the id of its user. -/
structure AuthState where
  user : Option String
  session : Option String
  loading : Bool
  isAdmin : Bool
  mounted : Bool
  deriving DecidableEq, Repr

/-- The state at the first render: `loading` starts `true`, `isAdmin`
starts `false`, and the effect's `isMounted.current` starts `true`. -/
def initialAuthState : AuthState :=
  { user := none, session := none, loading := true, isAdmin := false,
    mounted := true }

/-- fetchUserProfile of the auth provider: the `is_admin` flag it reports,
given the mounted flag after the await and the outcome of the
`select('is_admin')` query (`ok v` carries `data?.is_admin`). Errors,
exceptions and unmount all collapse to `false`. -/
def fetchUserProfile (mountedAfterAwait : Bool)
    (res : Except DbError (Option Bool)) : Bool :=
  if mountedAfterAwait = false then false
  else
    match res with
    | .error _ => false
    | .ok v => v.getD false

/-- handleAuthStateChange: mirror the new session into state, resolve the
admin flag from the profile row when a user is present, clear it otherwise,
and stop loading in the `finally` block. -/
def handleAuthStateChange (s : AuthState) (newSession : Option String)
    (profileRes : Except DbError (Option Bool)) : AuthState :=
  if s.mounted = false then s
  else
    let s1 := { s with session := newSession, user := newSession }
    let s2 :=
      match newSession with
      | some _ =>
        let adm := fetchUserProfile s1.mounted profileRes
        if s1.mounted then { s1 with isAdmin := adm } else s1
      | none => if s1.mounted then { s1 with isAdmin := false } else s1
    if s2.mounted then { s2 with loading := false } else s2

/-- initializeAuth: check the current session; on success register the safety
timeout (second component `true`) and either replay the session through
`handleAuthStateChange` or clear the state; on an exception clear the state
when still mounted, without registering the timeout. -/
def initializeAuth (s : AuthState)
    (getSessionRes : Except DbError (Option String))
    (profileRes : Except DbError (Option Bool)) : AuthState × Bool :=
  match getSessionRes with
  | .ok sess =>
    match sess with
    | some uid => (handleAuthStateChange s (some uid) profileRes, true)
    | none =>
      ({ s with
          user := none
          session := none
          isAdmin := false
          loading := false }, true)
  | .error _ =>
    if s.mounted then
      ({ s with
          user := none
          session := none
          isAdmin := false
          loading := false }, false)
    else (s, false)

/-- The body of the safety-timeout callback: it tests `isMounted.current`
and the `loading` variable captured by its closure (the value from the
render in which the effect ran), and forces `loading` to `false`. -/
def authTimeoutHandler (capturedLoading : Bool) (s : AuthState) : AuthState :=
  if s.mounted && capturedLoading then { s with loading := false } else s

/-- Firing the registered safety timeout: the closure captured `loading`
from the first render, where it is `initialAuthState.loading = true`. -/
def fireSafetyTimeout (s : AuthState) : AuthState :=
  authTimeoutHandler initialAuthState.loading s

/-- One externally visible action of the auth provider's single effect. -/
inductive EffectAction where
  | subscribeAuthStateChange
  | callGetSession
  | addWindowListener (event : String)
  | setMountedFalse
  | unsubscribeAuthStateChange
  | removeWindowListener (event : String)
  deriving DecidableEq, Repr

/-- The setup actions of the effect, in program order: the auth-state-change
subscription is registered first, then `initializeAuth` issues the initial
session check, then the `beforeunload` listener is added. -/
def authEffectSetup : List EffectAction :=
  [.subscribeAuthStateChange, .callGetSession, .addWindowListener "beforeunload"]

/-- The cleanup actions returned by the effect, in program order. -/
def authEffectCleanup : List EffectAction :=
  [.setMountedFalse, .unsubscribeAuthStateChange,
   .removeWindowListener "beforeunload"]

/-- Whether an effect action registers a realtime/auth subscription. -/
def EffectAction.isSubscribe : EffectAction → Bool
  | .subscribeAuthStateChange => true
  | _ => false

/-- Whether an effect action unsubscribes the auth subscription. -/
def EffectAction.isUnsubscribe : EffectAction → Bool
  | .unsubscribeAuthStateChange => true
  | _ => false

/-- A freshly inserted `auth.users` row, as `handle_new_user` sees it:
the id, the email, and the `raw_user_meta_data` keys it reads. -/
structure NewUserRow where
  id : String
  email : String
  metaUsername : Option String
  metaDisplayName : Option String
  metaAvatarUrl : Option String
  deriving DecidableEq, Repr

/-- The `profiles` row inserted by the `handle_new_user` trigger. -/
structure InsertedProfileRow where
  id : String
  username : String
  display_name : String
  avatar_url : Option String
  deriving DecidableEq, Repr

/-- `split_part(email, '@', 1)`: the part of the email before the first
`@`, or the whole string when it has none. -/
def emailLocalPart (email : String) : String :=
  String.mk (email.data.takeWhile (fun c => c ≠ '@'))

/-- The `handle_new_user` trigger function: the `profiles` row it inserts
for a new `auth.users` row, with the COALESCE fallbacks of the source. -/
def handle_new_user (u : NewUserRow) : InsertedProfileRow :=
  { id := u.id
  , username := u.metaUsername.getD (emailLocalPart u.email)
  , display_name :=
      u.metaDisplayName.getD (u.metaUsername.getD (emailLocalPart u.email))
  , avatar_url := u.metaAvatarUrl }

/-- The `auth.users` row produced by a signUp call with the given username:
signUp passes the metadata keys `username` and `display_name`, both set to
the given username, and no `avatar_url`. -/
def signUpNewUserRow (id email username : String) : NewUserRow :=
  { id := id, email := email, metaUsername := some username,
    metaDisplayName := some username, metaAvatarUrl := none }

/-- The field set of updateUserProfile's parameter type as declared in the
source (username?, display_name?, bio?, location?): the TypeScript type is
the only restriction that wrapper places on forwarded records. -/
def updateUserProfileFields : List String :=
  ["username", "display_name", "bio", "location"]

/-- The Profile field list of the specification:
id, username, display_name, bio, avatar_url, is_admin. -/
def specProfileFields : List String :=
  ["id", "username", "display_name", "bio", "avatar_url", "is_admin"]

/-- The spec's Profile fields together with the two extra field names the
source actually uses: `location` in profile updates and `verified` in the
posts projection. -/
def amendedProfileFields : List String :=
  specProfileFields ++ ["location", "verified"]

/-- C1 is false as stated: `updateProfile`, invoked with an authenticated
session and an update object with no valid fields, falls back to
`fetchOwnProfile`, which performs its own session check, so the single
invocation issues the `auth.getSession` SDK call twice — not at most once. -/
theorem claim1_counterexample :
    (updateProfile (some "u") [] (Except.ok []) (some "u")
      (Except.ok [])).1.count SdkCall.authGetSession = 2 := by
  decide

/-- Helper: `updateProfile` applied to the one-field object uploadAvatar
builds always takes the non-empty-update branch. -/
lemma updateProfile_avatar (uid pu : String) (ur : Except DbError JsObj)
    (fs : Option String) (fr : Except DbError JsObj) :
    updateProfile (some uid) [("avatar_url", .str pu)] ur fs fr =
      ([.authGetSession, .updateProfiles uid [("avatar_url", .str pu)]],
       match ur with | .error _ => none | .ok row => some row) := by
  rfl

/-- C1 (amended): every CRUD wrapper issues each backend SDK call at most
once per invocation, except that the session check (`auth.getSession`) is
issued a second time when a wrapper delegates to another wrapper
(`updateProfile` falling back to `fetchOwnProfile` when no valid updates
remain, and `uploadAvatar` delegating the `avatar_url` write to
`updateProfile`); and when a call reports an error the wrapper surfaces the
failure immediately (returning null or throwing the backend message), the
failing call being the last one issued, with no call retried. -/
theorem claim1_amended :
    ((∀ sess q, (fetchOwnProfile sess q).1.Nodup) ∧
     (∀ uid e, (fetchOwnProfile (some uid) (Except.error e)).2 = none ∧
        (fetchOwnProfile (some uid) (Except.error e)).1.getLast? =
          some (.selectProfileStar uid))) ∧
    ((∀ sess u ur fs fr c,
        (updateProfile sess u ur fs fr).1.count c ≤
          if c = SdkCall.authGetSession then 2 else 1) ∧
     (∀ uid u e fs fr, finalUpdates u ≠ [] →
        (updateProfile (some uid) u (Except.error e) fs fr).2 = none ∧
        (updateProfile (some uid) u (Except.error e) fs fr).1.getLast? =
          some (.updateProfiles uid (finalUpdates u)))) ∧
    ((∀ sess now f ur pu g fs fr c,
        (uploadAvatar sess now f ur pu g fs fr).1.count c ≤
          if c = SdkCall.authGetSession then 2 else 1) ∧
     (∀ uid now f e pu g fs fr,
        (uploadAvatar (some uid) now f (some e) pu g fs fr).2 = none ∧
        (uploadAvatar (some uid) now f (some e) pu g fs fr).1.getLast? =
          some (.storageUpload "avatars" (avatarFilePath uid now f))) ∧
     (∀ uid now f pu e fs fr,
        (uploadAvatar (some uid) now f none pu (Except.error e) fs fr).2 =
          none)) ∧
    ((∀ sess now content img ur pu ir,
        (createPost sess now content img ur pu ir).1.Nodup) ∧
     (∀ uid now content f e pu ir,
        (createPost (some uid) now content (some f) (some e) pu ir).2 = none ∧
        (createPost (some uid) now content (some f) (some e) pu ir).1.getLast?
          = some (.storageUpload "posts" (postFilePath uid now f))) ∧
     (∀ uid now content img pu e,
        (createPost (some uid) now content img none pu (Except.error e)).2 =
          none)) ∧
    ((∀ lim off q, (getPosts lim off q).1.Nodup) ∧
     (∀ lim off e, (getPosts lim off (Except.error e)).2 = none)) ∧
    ((∀ t r, (followUser t r).1.Nodup) ∧
     (∀ t e, (followUser t (some e)).2 = Except.error e.message)) ∧
    ((∀ t r, (unfollowUser t r).1.Nodup) ∧
     (∀ t e, (unfollowUser t (some e)).2 = Except.error e.message)) ∧
    ((∀ t r, (isFollowing t r).1.Nodup) ∧
     (∀ t e, e.code ≠ "PGRST116" →
        (isFollowing t (Except.error e)).2 = Except.error e.message)) ∧
    ((∀ g p r, (updateUserProfile g p r).1.Nodup) ∧
     (∀ g p e, (updateUserProfile g p (some e)).2 = Except.error e.message)) ∧
    ((∀ r, (getUserCount r).1.Nodup) ∧
     (∀ e, (getUserCount (Except.error e)).2 = Except.error e.message)) := by
  refine ⟨⟨?_, ?_⟩, ⟨?_, ?_⟩, ⟨?_, ?_, ?_⟩, ⟨?_, ?_, ?_⟩, ⟨?_, ?_⟩,
    ⟨?_, ?_⟩, ⟨?_, ?_⟩, ⟨?_, ?_⟩, ⟨?_, ?_⟩, ⟨?_, ?_⟩⟩
  · intro sess q
    cases sess <;> simp [fetchOwnProfile]
  · intro uid e
    exact ⟨rfl, rfl⟩
  · intro sess u ur fs fr c
    by_cases hc : c = SdkCall.authGetSession
    · subst hc
      cases sess with
      | none => simp [updateProfile, List.count_cons]
      | some uid =>
        simp only [updateProfile]
        split <;> cases fs <;> simp [fetchOwnProfile, List.count_cons]
    · cases sess with
      | none => simp [updateProfile, List.count_cons, hc, Ne.symm hc]
      | some uid =>
        simp only [updateProfile]
        split <;> cases fs <;>
          simp [fetchOwnProfile, List.count_cons, hc, Ne.symm hc] <;>
          (split <;> simp)
  · intro uid u e fs fr hne
    constructor
    · simp only [updateProfile]
      split
      · simp_all [List.length_eq_zero]
      · rfl
    · simp only [updateProfile]
      split
      · simp_all [List.length_eq_zero]
      · rfl
  · intro sess now f ur pu g fs fr c
    cases sess <;> cases ur <;> cases c <;>
      simp [uploadAvatar, updateProfile_avatar, List.count_cons] <;>
      (split <;> simp)
  · intro uid now f e pu g fs fr
    exact ⟨rfl, rfl⟩
  · intro uid now f pu e fs fr
    rfl
  · intro sess now content img ur pu ir
    cases sess <;> cases img <;> cases ur <;> simp [createPost]
  · intro uid now content f e pu ir
    exact ⟨rfl, rfl⟩
  · intro uid now content img pu e
    cases img <;> rfl
  · intro lim off q
    simp [getPosts]
  · intro lim off e
    rfl
  · intro t r
    simp [followUser]
  · intro t e
    rfl
  · intro t r
    simp [unfollowUser]
  · intro t e
    rfl
  · intro t r
    simp [isFollowing]
  · intro t e h
    simp [isFollowing, h]
  · intro g p r
    simp [updateUserProfile]
  · intro g p e
    rfl
  · intro r
    simp [getUserCount]
  · intro e
    rfl

/-- Witness for C1 (amended) at concrete inputs: a failing profile update
returns null, and a non-PGRST116 follow-status error is rethrown. -/
theorem claim1_amended_witness :
    (updateProfile (some "u") [("bio", JVal.str "b")] (Except.error ⟨"c", "m"⟩)
        (some "u") (Except.ok [])).2 = none ∧
    (isFollowing "t" (Except.error ⟨"X", "m"⟩)).2 = Except.error "m" := by
  obtain ⟨-, ⟨-, hupd⟩, -, -, -, -, -, ⟨-, hfol⟩, -, -⟩ := claim1_amended
  exact ⟨(hupd "u" [("bio", JVal.str "b")] ⟨"c", "m"⟩ (some "u")
      (Except.ok []) (by decide)).1,
    hfol "t" ⟨"X", "m"⟩ (by decide)⟩

/-- Helper: every entry surviving the updateProfile filter has a
whitelisted key and a kept (non-undefined, non-null) value. -/
lemma mem_finalUpdates {u : JsObj} {kv : String × JVal}
    (h : kv ∈ finalUpdates u) :
    kv.1 ∈ allowedUpdateFields ∧ kv.2.kept = true := by
  simp only [finalUpdates, allowedUpdates, List.mem_filter, List.mem_map] at h
  obtain ⟨⟨k, hk, rfl⟩, hkept⟩ := h
  exact ⟨hk, hkept⟩

/-- Helper: an update call in a `updateProfile` trace always targets the
session's user and carries exactly the filtered payload. -/
lemma updateProfiles_mem_trace {sess : Option String} {u : JsObj}
    {ur : Except DbError JsObj} {fs : Option String}
    {fr : Except DbError JsObj} {uid : String} {payload : JsObj}
    (h : SdkCall.updateProfiles uid payload ∈
      (updateProfile sess u ur fs fr).1) :
    sess = some uid ∧ payload = finalUpdates u := by
  cases sess with
  | none => simp [updateProfile] at h
  | some uid' =>
    simp only [updateProfile] at h
    by_cases h0 : (finalUpdates u).length = 0
    · rw [if_pos h0] at h
      cases fs <;> simp [fetchOwnProfile] at h
    · rw [if_neg h0] at h
      simp at h
      obtain ⟨h1, h2⟩ := h
      constructor
      · rw [h1]
      · exact h2

/-- Helper: when every whitelisted field of the argument is undefined or
null, the filtered payload is empty. -/
lemma finalUpdates_eq_nil {u : JsObj}
    (h : ∀ k ∈ allowedUpdateFields, (jsGet u k).kept = false) :
    finalUpdates u = [] := by
  rw [finalUpdates, List.filter_eq_nil_iff]
  intro kv hkv
  simp only [allowedUpdates, List.mem_map] at hkv
  obtain ⟨k, hk, rfl⟩ := hkv
  simp [h k hk]

/-- C2 (amended): the client profile-update wrappers do not forward the
caller-supplied record unchanged and do restrict which rows are written:
every update call `ApiService.updateProfile` issues targets the session
user's own row and carries only whitelisted, non-null fields — in
particular `is_admin` is never forwarded — while the standalone
`updateUserProfile` forwards its typed record unchanged but likewise
targets only the row of the user reported by `auth.getUser`. Row-level
security remains the final server-side authority. -/
theorem claim2_amended :
    (∀ sess u ur fs fr uid payload,
        SdkCall.updateProfiles uid payload ∈
          (updateProfile sess u ur fs fr).1 →
        sess = some uid ∧
        (∀ kv ∈ payload, kv.1 ∈ allowedUpdateFields ∧ kv.2.kept = true) ∧
        "is_admin" ∉ payload.map Prod.fst) ∧
    (∀ g p r uidOpt payload,
        SdkCall.updateProfilesRaw uidOpt payload ∈
          (updateUserProfile g p r).1 →
        uidOpt = g ∧ payload = p) := by
  constructor
  · intro sess u ur fs fr uid payload hmem
    obtain ⟨hsess, hpay⟩ := updateProfiles_mem_trace hmem
    subst hpay
    refine ⟨hsess, fun kv hkv => mem_finalUpdates hkv, ?_⟩
    intro hadm
    simp only [List.mem_map] at hadm
    obtain ⟨kv, hkv, hfst⟩ := hadm
    have := (mem_finalUpdates hkv).1
    rw [hfst] at this
    simp [allowedUpdateFields] at this
  · intro g p r uidOpt payload hmem
    simp [updateUserProfile] at hmem
    exact ⟨hmem.1, hmem.2⟩

/-- Witness for C2 (amended) at concrete inputs: an update containing
`is_admin` reaches the backend without it, and updateUserProfile forwards
its record verbatim to the current user's row. -/
theorem claim2_amended_witness :
    ((some "u" : Option String) = some "u" ∧
      (∀ kv ∈ ([("bio", JVal.str "hi")] : JsObj),
        kv.1 ∈ allowedUpdateFields ∧ kv.2.kept = true) ∧
      "is_admin" ∉ ([("bio", JVal.str "hi")] : JsObj).map Prod.fst) ∧
    ((some "o" : Option String) = some "o" ∧
      ([("bio", JVal.str "x")] : JsObj) = [("bio", JVal.str "x")]) := by
  exact ⟨claim2_amended.1 (some "u")
      [("is_admin", JVal.str "true"), ("bio", JVal.str "hi")]
      (Except.ok []) (some "u") (Except.ok []) "u"
      [("bio", JVal.str "hi")] (by decide),
    claim2_amended.2 (some "o") [("bio", JVal.str "x")] none (some "o")
      [("bio", JVal.str "x")] (by decide)⟩

/-- C2 is false as stated: on an update object containing `is_admin`, the
wrapper sends a payload that drops `is_admin` (the record is not forwarded
unchanged), and the single update call it issues carries an equality
restriction to the caller's own row id. -/
theorem claim2_counterexample :
    (updateProfile (some "u")
        [("is_admin", JVal.str "true"), ("bio", JVal.str "hi")]
        (Except.ok []) (some "u") (Except.ok [])).1 =
      [.authGetSession, .updateProfiles "u" [("bio", JVal.str "hi")]] ∧
    ([("bio", JVal.str "hi")] : JsObj) ≠
      [("is_admin", JVal.str "true"), ("bio", JVal.str "hi")] := by
  decide

/-- C7 is false as stated: `updateProfile` passes the field `location`
through to the backend and the posts projection selects `verified`,
neither of which is among the spec's six Profile fields. -/
theorem claim7_counterexample :
    (updateProfile (some "u") [("location", JVal.str "x")] (Except.ok [])
        (some "u") (Except.ok [])).1 =
      [.authGetSession, .updateProfiles "u" [("location", JVal.str "x")]] ∧
    "location" ∉ specProfileFields ∧
    "verified" ∈ postsProfilesProjection ∧
    "verified" ∉ specProfileFields := by
  decide

/-- C7 (amended): the Profile fields the application itself names when
passing profiles through are the spec's six plus `location` (updatable in
both profile-update wrappers) and `verified` (selected in the posts
profile projection): every field of every profile-update payload issued by
`ApiService.updateProfile`, and by `updateUserProfile` for records within
its typed field set, lies in this amended field list, as does every
whitelisted updatable field, every typed updateUserProfile field, and
every field of the posts profile projection; profile reads enumerate no
fields at all (fetchOwnProfile issues only the session check and the
whole-row select); and every getPosts call carries exactly the source's
projection. -/
theorem claim7_amended :
    (∀ sess u ur fs fr uid payload,
        SdkCall.updateProfiles uid payload ∈
          (updateProfile sess u ur fs fr).1 →
        ∀ kv ∈ payload, kv.1 ∈ amendedProfileFields) ∧
    (∀ g p r uidOpt payload,
        SdkCall.updateProfilesRaw uidOpt payload ∈
          (updateUserProfile g p r).1 →
        (∀ kv ∈ p, kv.1 ∈ updateUserProfileFields) →
        ∀ kv ∈ payload, kv.1 ∈ amendedProfileFields) ∧
    (∀ sess q c, c ∈ (fetchOwnProfile sess q).1 →
        c = SdkCall.authGetSession ∨
        ∃ uid, sess = some uid ∧ c = SdkCall.selectProfileStar uid) ∧
    (∀ k ∈ allowedUpdateFields, k ∈ amendedProfileFields) ∧
    (∀ k ∈ updateUserProfileFields, k ∈ amendedProfileFields) ∧
    (∀ k ∈ postsProfilesProjection, k ∈ amendedProfileFields) ∧
    (∀ lim off q c, c ∈ (getPosts lim off q).1 →
        c = .selectPings postsProfilesProjection postsLikesProjection
          postsCommentsProjection off (off + lim - 1)) := by
  refine ⟨?_, ?_, ?_, by decide, by decide, by decide, ?_⟩
  · intro sess u ur fs fr uid payload hmem kv hkv
    obtain ⟨-, hpay⟩ := updateProfiles_mem_trace hmem
    subst hpay
    have h1 := (mem_finalUpdates hkv).1
    have h2 : ∀ k, k ∈ allowedUpdateFields → k ∈ amendedProfileFields := by
      decide
    exact h2 _ h1
  · intro g p r uidOpt payload hmem hp kv hkv
    simp [updateUserProfile] at hmem
    obtain ⟨-, hpay⟩ := hmem
    subst hpay
    have h2 : ∀ k, k ∈ updateUserProfileFields → k ∈ amendedProfileFields := by
      decide
    exact h2 _ (hp kv hkv)
  · intro sess q c hc
    cases sess with
    | none =>
      left
      simpa [fetchOwnProfile] using hc
    | some uid =>
      simp only [fetchOwnProfile, List.mem_cons, List.mem_singleton,
        List.not_mem_nil] at hc
      rcases hc with h | h | h
      · exact Or.inl h
      · exact Or.inr ⟨uid, rfl, h⟩
      · exact absurd h (by simp)
  · intro lim off q c hc
    simpa [getPosts] using hc

/-- Witness for C7 (amended) at concrete inputs: a location-only
ApiService update payload and a typed bio/location updateUserProfile
record stay within the amended field list, and a concrete whole-row
profile read is classified. -/
theorem claim7_amended_witness :
    (∀ kv ∈ ([("location", JVal.str "x")] : JsObj),
      kv.1 ∈ amendedProfileFields) ∧
    (∀ kv ∈ ([("bio", JVal.str "b"), ("location", JVal.str "l")] : JsObj),
      kv.1 ∈ amendedProfileFields) ∧
    (SdkCall.selectProfileStar "u" = SdkCall.authGetSession ∨
      ∃ uid, (some "u" : Option String) = some uid ∧
        SdkCall.selectProfileStar "u" = SdkCall.selectProfileStar uid) := by
  exact ⟨claim7_amended.1 (some "u") [("location", JVal.str "x")]
      (Except.ok []) (some "u") (Except.ok []) "u"
      [("location", JVal.str "x")] (by decide),
    claim7_amended.2.1 (some "o")
      [("bio", JVal.str "b"), ("location", JVal.str "l")] none (some "o")
      [("bio", JVal.str "b"), ("location", JVal.str "l")] (by decide)
      (by decide),
    claim7_amended.2.2.1 (some "u") (Except.ok [])
      (SdkCall.selectProfileStar "u") (by decide)⟩

/-- C8: when every updatable field of the argument (username,
display_name, bio, location, avatar_url) is undefined or null,
updateProfile issues no update call at all — the stored row is untouched —
and returns the result of fetchOwnProfile instead, its trace being the
extra session check followed by fetchOwnProfile's calls. -/
theorem claim8_empty_update :
    ∀ sess u ur fs fr,
      (∀ k ∈ allowedUpdateFields, (jsGet u k).kept = false) →
      (∀ uid payload, SdkCall.updateProfiles uid payload ∉
        (updateProfile sess u ur fs fr).1) ∧
      (updateProfile sess u ur sess fr).2 = (fetchOwnProfile sess fr).2 ∧
      (∀ uid, sess = some uid →
        (updateProfile sess u ur sess fr).1 =
          SdkCall.authGetSession :: (fetchOwnProfile sess fr).1) := by
  intro sess u ur fs fr h
  have hnil := finalUpdates_eq_nil h
  refine ⟨?_, ?_, ?_⟩
  · intro uid payload hmem
    cases sess with
    | none => simp [updateProfile] at hmem
    | some uid' =>
      simp only [updateProfile] at hmem
      rw [if_pos (by simp [hnil])] at hmem
      cases fs <;> simp [fetchOwnProfile] at hmem
  · cases sess with
    | none => rfl
    | some uid => simp [updateProfile, hnil]
  · intro uid hsess
    subst hsess
    simp [updateProfile, hnil]

/-- Witness for C8 at a concrete input: a null-bio update object leads to
no update call and to fetchOwnProfile's result. -/
theorem claim8_empty_update_witness :
    (∀ uid payload, SdkCall.updateProfiles uid payload ∉
      (updateProfile (some "u") [("bio", JVal.jnull)] (Except.ok [])
        (some "u") (Except.ok [⟨"id", JVal.str "u"⟩])).1) ∧
    (updateProfile (some "u") [("bio", JVal.jnull)] (Except.ok [])
        (some "u") (Except.ok [⟨"id", JVal.str "u"⟩])).2 =
      (fetchOwnProfile (some "u") (Except.ok [⟨"id", JVal.str "u"⟩])).2 := by
  have h := claim8_empty_update (some "u") [("bio", JVal.jnull)]
    (Except.ok []) (some "u") (Except.ok [⟨"id", JVal.str "u"⟩]) (by decide)
  exact ⟨h.1, h.2.1⟩

/-- C5: createPost handles its error branches atomically — with an image
file, an upload failure makes it return null with no insert into `pings`
ever issued; an insert failure returns null; and only when every backend
call succeeds does it return the newly created row. -/
theorem claim5_createPost_atomic :
    ∀ uid now content f pu,
      (∀ e ir,
        (createPost (some uid) now content (some f) (some e) pu ir).2 =
          none ∧
        ∀ u2 c2 iu, SdkCall.insertPing u2 c2 iu ∉
          (createPost (some uid) now content (some f) (some e) pu ir).1) ∧
      (∀ e,
        (createPost (some uid) now content (some f) none pu
          (Except.error e)).2 = none) ∧
      (∀ row,
        (createPost (some uid) now content (some f) none pu
          (Except.ok row)).2 = some row) := by
  intro uid now content f pu
  refine ⟨?_, fun e => rfl, fun row => rfl⟩
  intro e ir
  refine ⟨rfl, ?_⟩
  intro u2 c2 iu
  simp [createPost]

/-- Witness for C5 at concrete inputs: a failed image upload yields null
and no ping insert; a successful run returns the inserted row. -/
theorem claim5_createPost_atomic_witness :
    ((createPost (some "u") 7 "hello" (some ⟨"a.png"⟩) (some ⟨"c", "m"⟩)
        "URL" (Except.ok [])).2 = none ∧
      ∀ u2 c2 iu, SdkCall.insertPing u2 c2 iu ∉
        (createPost (some "u") 7 "hello" (some ⟨"a.png"⟩) (some ⟨"c", "m"⟩)
          "URL" (Except.ok [])).1) ∧
    (createPost (some "u") 7 "hello" (some ⟨"a.png"⟩) none "URL"
        (Except.ok [("id", JVal.str "p1")])).2 =
      some [("id", JVal.str "p1")] := by
  exact ⟨(claim5_createPost_atomic "u" 7 "hello" ⟨"a.png"⟩ "URL").1 ⟨"c", "m"⟩
      (Except.ok []),
    (claim5_createPost_atomic "u" 7 "hello" ⟨"a.png"⟩ "URL").2.2
      [("id", JVal.str "p1")]⟩

/-- C10: isFollowing returns true exactly when the follows query yields a
row; the no-rows error code PGRST116 yields false rather than a throw; and
every other backend error is rethrown carrying the backend's message. -/
theorem claim10_isFollowing_result :
    ∀ t res,
      ((isFollowing t res).2 = Except.ok true ↔ ∃ row, res = Except.ok row) ∧
      (∀ e, res = Except.error e → e.code = "PGRST116" →
        (isFollowing t res).2 = Except.ok false) ∧
      (∀ e, res = Except.error e → e.code ≠ "PGRST116" →
        (isFollowing t res).2 = Except.error e.message) := by
  intro t res
  refine ⟨?_, ?_, ?_⟩
  · cases res with
    | ok row => simp [isFollowing]
    | error e =>
      simp only [isFollowing]
      by_cases h : e.code = "PGRST116" <;> simp [h]
  · intro e hres h
    subst hres
    simp [isFollowing, h]
  · intro e hres h
    subst hres
    simp [isFollowing, h]

/-- Witness for C10 at concrete inputs: a found row, a PGRST116 error, and
a permission error. -/
theorem claim10_isFollowing_result_witness :
    ((isFollowing "t" (Except.ok [("id", JVal.str "f1")])).2 = Except.ok true
      ↔ ∃ row, (Except.ok [("id", JVal.str "f1")] :
          Except DbError JsObj) = Except.ok row) ∧
    (isFollowing "t" (Except.error ⟨"PGRST116", "no rows"⟩)).2 =
      Except.ok false ∧
    (isFollowing "t" (Except.error ⟨"42501", "denied"⟩)).2 =
      Except.error "denied" := by
  exact ⟨(claim10_isFollowing_result "t" (Except.ok [("id", JVal.str "f1")])).1,
    (claim10_isFollowing_result "t"
      (Except.error ⟨"PGRST116", "no rows"⟩)).2.1 _ rfl (by decide),
    (claim10_isFollowing_result "t"
      (Except.error ⟨"42501", "denied"⟩)).2.2 _ rfl (by decide)⟩

/-- C6: the handle_new_user trigger inserts a profiles row whose username
is the metadata username when present, else the local part of the email
before the at-sign, and whose display_name falls back in the order
metadata display_name, metadata username, email local part; hence for
every signUp call with username u the created profile has username u and
display_name u. -/
theorem claim6_handle_new_user :
    (∀ u s, u.metaUsername = some s → (handle_new_user u).username = s) ∧
    (∀ u, u.metaUsername = none →
      (handle_new_user u).username = emailLocalPart u.email) ∧
    (∀ u d, u.metaDisplayName = some d →
      (handle_new_user u).display_name = d) ∧
    (∀ u s, u.metaDisplayName = none → u.metaUsername = some s →
      (handle_new_user u).display_name = s) ∧
    (∀ u, u.metaDisplayName = none → u.metaUsername = none →
      (handle_new_user u).display_name = emailLocalPart u.email) ∧
    (∀ id email un,
      (handle_new_user (signUpNewUserRow id email un)).username = un ∧
      (handle_new_user (signUpNewUserRow id email un)).display_name = un) := by
  refine ⟨?_, ?_, ?_, ?_, ?_, ?_⟩
  · intro u s h
    simp [handle_new_user, h]
  · intro u h
    simp [handle_new_user, h]
  · intro u d h
    simp [handle_new_user, h]
  · intro u s h1 h2
    simp [handle_new_user, h1, h2]
  · intro u h1 h2
    simp [handle_new_user, h1, h2]
  · intro id email un
    exact ⟨rfl, rfl⟩

/-- Witness for C6 at concrete inputs: a signUp-created user gets its
username as both profile fields, and a metadata-less user falls back to
the email local part. -/
theorem claim6_handle_new_user_witness :
    (handle_new_user (signUpNewUserRow "uid1" "joe@example.com" "joe_cool")).username = "joe_cool" ∧
    (handle_new_user (signUpNewUserRow "uid1" "joe@example.com" "joe_cool")).display_name = "joe_cool" ∧
    (handle_new_user ⟨"uid2", "ann@example.com", none, none, none⟩).username = "ann" := by
  refine ⟨(claim6_handle_new_user.2.2.2.2.2 "uid1" "joe@example.com" "joe_cool").1,
    (claim6_handle_new_user.2.2.2.2.2 "uid1" "joe@example.com" "joe_cool").2,
    ?_⟩
  have h := claim6_handle_new_user.2.1 ⟨"uid2", "ann@example.com", none, none, none⟩ rfl
  rw [h]
  decide

/-- C3: the auth bootstrap's safety timeout forces loading to false — the
timeout handler, fired while mounted with loading still true, sets loading
to false (its closure captured the initial loading value, true); and for
every resolved outcome of the initial session check, either loading is
already false afterwards or the timeout was registered and firing it
forces loading to false, so loading does not remain true indefinitely
after mount. -/
theorem claim3_safety_timeout :
    (∀ s : AuthState, s.mounted = true → s.loading = true →
      (fireSafetyTimeout s).loading = false) ∧
    (∀ gs pr,
      (initializeAuth initialAuthState gs pr).1.loading = false ∨
      ((initializeAuth initialAuthState gs pr).2 = true ∧
        (fireSafetyTimeout (initializeAuth initialAuthState gs pr).1).loading
          = false)) := by
  constructor
  · intro s hm _
    simp [fireSafetyTimeout, authTimeoutHandler, initialAuthState, hm]
  · intro gs pr
    cases gs with
    | error e => left; rfl
    | ok sess =>
      cases sess with
      | none => left; rfl
      | some uid =>
        left
        simp [initializeAuth, handleAuthStateChange, initialAuthState,
          fetchUserProfile]

/-- Witness for C3 at concrete inputs: firing the timer on the loading
initial state clears loading, and a successful admin-session bootstrap
ends with loading false. -/
theorem claim3_safety_timeout_witness :
    (fireSafetyTimeout
      { user := none, session := none, loading := true, isAdmin := false,
        mounted := true }).loading = false ∧
    ((initializeAuth initialAuthState (Except.ok (some "u"))
        (Except.ok (some true))).1.loading = false ∨
      ((initializeAuth initialAuthState (Except.ok (some "u"))
          (Except.ok (some true))).2 = true ∧
        (fireSafetyTimeout (initializeAuth initialAuthState
          (Except.ok (some "u")) (Except.ok (some true))).1).loading
          = false)) := by
  exact ⟨claim3_safety_timeout.1
      { user := none, session := none, loading := true, isAdmin := false,
        mounted := true } rfl rfl,
    claim3_safety_timeout.2 (Except.ok (some "u")) (Except.ok (some true))⟩

/-- C4: the auth provider's effect registers exactly one
auth-state-change subscription, does so before the initial session check,
registers no other realtime subscription, and its cleanup unsubscribes
exactly once. -/
theorem claim4_single_subscription :
    authEffectSetup.countP (fun a => a.isSubscribe) = 1 ∧
    authEffectSetup.indexOf EffectAction.subscribeAuthStateChange <
      authEffectSetup.indexOf EffectAction.callGetSession ∧
    authEffectCleanup.countP (fun a => a.isUnsubscribe) = 1 := by
  decide

/-- C9: while mounted, a handled auth state change leaves isAdmin true
exactly when a session user is present and the profile query reported
is_admin = true; a null session, a failed or thrown profile fetch, and the
no-session or failed initialization paths all leave isAdmin false. -/
theorem claim9_isAdmin_invariant :
    ∀ (s : AuthState) (snew : Option String)
      (pr : Except DbError (Option Bool)),
      s.mounted = true →
      ((handleAuthStateChange s snew pr).isAdmin = true ↔
        ((∃ uid, snew = some uid) ∧ pr = Except.ok (some true))) ∧
      (snew = none → (handleAuthStateChange s snew pr).isAdmin = false) ∧
      (∀ e, pr = Except.error e →
        (handleAuthStateChange s snew pr).isAdmin = false) ∧
      (∀ gs, (gs = Except.ok none ∨ ∃ e, gs = Except.error e) →
        (initializeAuth s gs pr).1.isAdmin = false) := by
  intro s snew pr hm
  refine ⟨?_, ?_, ?_, ?_⟩
  · cases snew with
    | none => simp [handleAuthStateChange, hm]
    | some uid =>
      cases pr with
      | error e => simp [handleAuthStateChange, fetchUserProfile, hm]
      | ok v =>
        cases v with
        | none => simp [handleAuthStateChange, fetchUserProfile, hm]
        | some b =>
          cases b <;> simp [handleAuthStateChange, fetchUserProfile, hm]
  · intro h
    subst h
    simp [handleAuthStateChange, hm]
  · intro e h
    subst h
    cases snew <;> simp [handleAuthStateChange, fetchUserProfile, hm]
  · intro gs hgs
    rcases hgs with h | ⟨e, h⟩ <;> subst h <;>
      simp [initializeAuth, hm]

/-- Witness for C9 at concrete inputs: an admin profile yields isAdmin
true, while a null session, a fetch error, and an empty initial session
all yield isAdmin false. -/
theorem claim9_isAdmin_invariant_witness :
    ((handleAuthStateChange initialAuthState (some "u")
        (Except.ok (some true))).isAdmin = true ↔
      ((∃ uid, (some "u" : Option String) = some uid) ∧
        (Except.ok (some true) : Except DbError (Option Bool)) =
          Except.ok (some true))) ∧
    (handleAuthStateChange initialAuthState none
      (Except.ok (some true))).isAdmin = false ∧
    (handleAuthStateChange initialAuthState (some "u")
      (Except.error ⟨"c", "m"⟩)).isAdmin = false ∧
    (initializeAuth initialAuthState (Except.ok none)
      (Except.ok (some true))).1.isAdmin = false := by
  exact ⟨(claim9_isAdmin_invariant initialAuthState (some "u")
      (Except.ok (some true)) rfl).1,
    (claim9_isAdmin_invariant initialAuthState none
      (Except.ok (some true)) rfl).2.1 rfl,
    (claim9_isAdmin_invariant initialAuthState (some "u")
      (Except.error ⟨"c", "m"⟩) rfl).2.2.1 ⟨"c", "m"⟩ rfl,
    (claim9_isAdmin_invariant initialAuthState (some "u")
      (Except.ok (some true)) rfl).2.2.2 (Except.ok none) (Or.inl rfl)⟩
